import Mathlib

/-!
Shallow embedding of the request-dispatch core of the gorip REST server
(src/server.go).  The dispatcher `Server.ServeHTTP` is modelled as the pure
function `dispatch`, which returns the branch taken together with
instrumentation flags, and `serveHTTP`, which maps that branch to the list of
responses written through `renderResourceResult`.

Components of the repository that are not under src/ (the router internals,
endpoint.go, resourcehandler.go, the Content-Type and Accept header parsers,
documentation.go) appear only through their results; they are modelled from
the specification and marked as such in their doc comments.
-/

namespace Gorip

/-- Lookup in an association list of header or query values: the first value
bound to the key, or the empty string when the key is absent.  This models
both http.Header.Get and url.Values.Get as used by server.go. -/
def valuesGet (values : List (String × String)) (key : String) : String :=
  match values.find? (fun p => p.1 == key) with
  | some p => p.2
  | none => ""

/-- Modelled from the spec: one parsed Accept-header element, a
MediaTypePreference (type, subtype, quality); quality is kept in permille to
stay in Nat.  The dispatcher in server.go consults the parse result only
through HasAcceptElement, so the fields are carried for fidelity only. -/
structure MediaTypePreference where
  typeName : String
  subtypeName : String
  qualityPermille : Nat
deriving DecidableEq, Repr

/-- Modelled from the spec: result of newAcceptHeaderParser (accept.go is not
under src/), the list of valid preference entries parsed from the header. -/
structure AcceptHeaderParser where
  elements : List MediaTypePreference
deriving DecidableEq, Repr

/-- True when the parsed Accept header has at least one valid element;
server.go line 207 rejects the request when this is false. -/
def AcceptHeaderParser.HasAcceptElement (p : AcceptHeaderParser) : Bool :=
  !p.elements.isEmpty

/-- Modelled from the spec: result of newContentTypeHeaderParser
(contenttype.go is not under src/); none means an empty header, that is no
declared input type. -/
structure ContentTypeHeaderParser where
  contentType : Option String
deriving DecidableEq, Repr

/-- Result returned by a resource handler execution (ResourceHandlerResult in
the source): an HTTP status and an optional body, the body bytes modelled as
a string (none models a nil buffer). -/
structure ResourceHandlerResult where
  HttpStatus : Nat
  Body : Option String
deriving DecidableEq, Repr

/-- The request context handed to a resource handler implementation
(ResourceHandlerContext in the source).  The debug-only RequestId field is
omitted: it is populated only when the debug identifier flag is on, and it is
derived from the wall clock, which a pure model does not carry. -/
structure ResourceHandlerContext where
  RouteVariables : List (String × String) := []
  Header : List (String × String) := []
  ContentTypeIn : Option String := none
  ContentTypeOut : Option String := none
  Body : Option String := none
  QueryParameters : List (String × String) := []
deriving DecidableEq, Repr

/-- Modelled from the spec: the optional format validator of a query
parameter (resourcehandler.go is not under src/), a predicate plus the error
message surfaced on failure. -/
structure QueryParameterFormatValidator where
  IsValid : String → Bool
  GetErrorMessage : String

/-- A declared query parameter (resourcehandler.go is not under src/): kind
name, default value and optional format validator as in the spec.
IsValidType is modelled from the spec as an abstract predicate deciding
whether a value satisfies the declared kind. -/
structure QueryParameter where
  Kind : String
  DefaultValue : String
  FormatValidator : Option QueryParameterFormatValidator
  IsValidType : String → Bool

/-- The three ways one declared query parameter can fail validation in the
loop of server.go lines 272-303. -/
inductive QueryParameterError where
  | invalidDefault (key kind : String)
  | invalidKind (key kind : String)
  | invalidFormat (message : String)
deriving DecidableEq, Repr

/-- The common tail of one query-parameter iteration (server.go lines
284-302): check the kind of the value in hand, then, only on success, run the
optional format validator, surfacing its own error message on failure; a
value passing both is the accepted value. -/
def checkQueryParameterValue (qpKey : String) (qpObject : QueryParameter)
    (qpValue : String) : Except QueryParameterError String :=
  if !qpObject.IsValidType qpValue then
    .error (.invalidKind qpKey qpObject.Kind)
  else
    match qpObject.FormatValidator with
    | some validator =>
        if !validator.IsValid qpValue then
          .error (.invalidFormat validator.GetErrorMessage)
        else
          .ok qpValue
    | none => .ok qpValue

/-- One iteration of the query-parameter loop (server.go lines 272-302) for
the parameter qpKey: retrieve the value; when it is the empty string,
substitute the default and reject with invalidDefault when the default fails
its own kind; then run the common kind-and-format check on the value in
hand. -/
def checkQueryParameter (urlValues : List (String × String)) (qpKey : String)
    (qpObject : QueryParameter) : Except QueryParameterError String :=
  let qpValue := valuesGet urlValues qpKey
  if qpValue == "" then
    if !qpObject.IsValidType qpObject.DefaultValue then
      .error (.invalidDefault qpKey qpObject.Kind)
    else
      checkQueryParameterValue qpKey qpObject qpObject.DefaultValue
  else
    checkQueryParameterValue qpKey qpObject qpValue

/-- The whole query-parameter loop of server.go lines 269-303: parameters are
checked in declaration order, the first failure aborts the loop, and the
accepted values are collected into the name-to-string mapping handed to the
handler. -/
def processQueryParameters (urlValues : List (String × String)) :
    List (String × QueryParameter) →
    Except QueryParameterError (List (String × String))
  | [] => .ok []
  | (qpKey, qpObject) :: rest =>
    match checkQueryParameter urlValues qpKey qpObject with
    | .ok value =>
        match processQueryParameters urlValues rest with
        | .ok params => .ok ((qpKey, value) :: params)
        | .error e => .error e
    | .error e => .error e

/-- A registered resource handler (resourcehandler.go is not under src/):
the declared query-parameter schema in declaration order and the
implementation executed by the dispatcher.  Method and the content-type sets
are consulted only inside FindMatchingResource, which is modelled abstractly
on the endpoint, so they are not carried here. -/
structure ResourceHandler where
  QueryParameters : List (String × QueryParameter)
  Implementation : ResourceHandlerContext → ResourceHandlerResult

/-- An endpoint (endpoint.go is not under src/): its registered resource
handlers, and FindMatchingResource modelled from the spec as an abstract
function from (method, parsed Content-Type, parsed Accept) to the triple
(matching handler or none, resolved input content type or none, resolved
output content type or none), the shape the dispatcher consumes. -/
structure Endpoint where
  resourceHandlers : List ResourceHandler
  findMatchingResource : String → ContentTypeHeaderParser →
    AcceptHeaderParser →
    Option ResourceHandler × Option String × Option String

/-- GetResourceHandlers as used at server.go line 216. -/
def Endpoint.GetResourceHandlers (e : Endpoint) : List ResourceHandler :=
  e.resourceHandlers

/-- A node of the route tree as the dispatcher sees it: its optional
endpoint.  The tree walk itself lives behind Server.findNodeByRoute. -/
structure RouteNode where
  endpoint : Option Endpoint

/-- GetEndpoint as used at server.go lines 182 and 215. -/
def RouteNode.GetEndpoint (n : RouteNode) : Option Endpoint :=
  n.endpoint

/-- The server as the dispatcher consumes it: the documentation-endpoint
switch and the router, the latter modelled from the spec by its lookup
function FindNodeByRoute returning (error message or none, node or none,
captured route variables).  The debug logging flags are omitted: they change
only the log output, except the request identifier, which is time-derived and
rendered here as the constant placeholder of server.go line 125. -/
structure Server where
  documentationEndpointEnabled : Bool
  documentationEndpointUrl : String
  findNodeByRoute : String → Option String × Option RouteNode ×
    List (String × String)

/-- An incoming request as the dispatcher consumes it: path, method, headers,
the result of reading the body in full (ioutil.ReadAll can fail), and the
parsed query-string values. -/
structure Request where
  urlPath : String
  method : String
  header : List (String × String)
  bodyRead : Except String String
  urlQuery : List (String × String)

/-- net/http StatusBadRequest. -/
def StatusBadRequest : Nat := 400

/-- net/http StatusInternalServerError. -/
def StatusInternalServerError : Nat := 500

/-- What one call to renderResourceResult (server.go lines 328-353) writes to
the response: the Content-Length header value, the Content-Type header when
set, the status passed to WriteHeader, and the body bytes written. -/
structure RenderedResponse where
  contentLengthHeader : Nat
  contentTypeHeader : Option String
  statusWritten : Nat
  bodyWritten : String
deriving DecidableEq, Repr

/-- Byte length of a result body, 0 for a nil body, as computed at server.go
lines 330-333. -/
def resultBodyLength (result : ResourceHandlerResult) : Nat :=
  match result.Body with
  | none => 0
  | some b => b.utf8ByteSize

/-- renderResourceResult (server.go lines 328-353): always set Content-Length
to the body byte length; set Content-Type only when that length is positive;
write the status; write the body only when the length is positive. -/
def renderResourceResult (result : ResourceHandlerResult)
    (contentType : String) : RenderedResponse :=
  let bodyOutLen := resultBodyLength result
  { contentLengthHeader := bodyOutLen
    contentTypeHeader := if bodyOutLen > 0 then some contentType else none
    statusWritten := result.HttpStatus
    bodyWritten := if bodyOutLen > 0 then result.Body.getD "" else "" }

/-- Modelled from the spec: serveDocumentation (documentation.go is not under
src/) renders the documentation payload as a single response; only the fact
that exactly one response is written matters to the claims, so the payload is
a fixed placeholder. -/
def documentationResponse : RenderedResponse :=
  { contentLengthHeader := 0
    contentTypeHeader := none
    statusWritten := 200
    bodyWritten := "" }

/-- The branch Server.ServeHTTP ends in, one constructor per return path of
server.go lines 149-308, in source order.  The executed constructor records
the context handed to the implementation, the result it returned, and the
output content type used to render it.  The panicked constructor models the
nil-pointer dereference of ContentTypeOut at line 307, which under net/http
aborts the request without writing a response. -/
inductive DispatchOutcome where
  | docServed
  | routerError (message : String)
  | routeNotFound
  | noEndpoint
  | invalidContentTypeHeader (message : String)
  | invalidAcceptHeader (message : String)
  | noAcceptableMediaType
  | noResourceHandlers
  | noMatchingResource
  | bodyReadError
  | bodyNotAllowed
  | resourceInstantiationFailure
  | queryParameterFault (e : QueryParameterError)
  | executed (context : ResourceHandlerContext)
      (result : ResourceHandlerResult) (contentTypeOut : String)
  | panicked
deriving DecidableEq, Repr

/-- The dispatch result: the branch taken, plus two instrumentation flags set
exactly where the source invokes the corresponding call, namely
endp.FindMatchingResource at line 225 and Implementation.Execute at
line 306. -/
structure DispatchResult where
  outcome : DispatchOutcome
  findMatchingResourceInvoked : Bool
  handlerExecuted : Bool
deriving DecidableEq, Repr

/-- The control flow of Server.ServeHTTP (server.go lines 149-308) as a pure
function of the server, the request, and the two header-parsing functions
(which live outside src/ and are therefore taken as parameters).  Each early
return of the source is one constructor of DispatchOutcome; the source order
of the checks is preserved.  Line 259 binds the matched handler directly,
without any factory call, and lines 260-265 re-test that same value for
nil. -/
def dispatch
    (newContentTypeHeaderParser : String → Except String ContentTypeHeaderParser)
    (newAcceptHeaderParser : String → Except String AcceptHeaderParser)
    (s : Server) (request : Request) : DispatchResult :=
  if s.documentationEndpointEnabled && s.documentationEndpointUrl == request.urlPath then
    ⟨.docServed, false, false⟩
  else
    match s.findNodeByRoute request.urlPath with
    | (some errMessage, _, _) => ⟨.routerError errMessage, false, false⟩
    | (none, none, _) => ⟨.routeNotFound, false, false⟩
    | (none, some node, routeVariables) =>
      let ctx0 : ResourceHandlerContext :=
        { RouteVariables := routeVariables, Header := request.header }
      match node.GetEndpoint with
      | none => ⟨.noEndpoint, false, false⟩
      | some endp =>
        match newContentTypeHeaderParser (valuesGet request.header "Content-Type") with
        | .error e => ⟨.invalidContentTypeHeader e, false, false⟩
        | .ok contentTypeParser =>
          match newAcceptHeaderParser (valuesGet request.header "Accept") with
          | .error e => ⟨.invalidAcceptHeader e, false, false⟩
          | .ok acceptParser =>
            if !acceptParser.HasAcceptElement then
              ⟨.noAcceptableMediaType, false, false⟩
            else if endp.GetResourceHandlers.length == 0 then
              ⟨.noResourceHandlers, false, false⟩
            else
              let fmr := endp.findMatchingResource request.method
                contentTypeParser acceptParser
              let matchingResource := fmr.1
              let ctx1 := { ctx0 with
                ContentTypeIn := fmr.2.1, ContentTypeOut := fmr.2.2 }
              if matchingResource.isNone then
                ⟨.noMatchingResource, true, false⟩
              else
                match request.bodyRead with
                | .error _ => ⟨.bodyReadError, true, false⟩
                | .ok bodyInBytes =>
                  if ctx1.ContentTypeIn.isNone && bodyInBytes.utf8ByteSize > 0 then
                    ⟨.bodyNotAllowed, true, false⟩
                  else
                    let ctx2 := { ctx1 with Body := some bodyInBytes }
                    match matchingResource with
                    | none => ⟨.resourceInstantiationFailure, true, false⟩
                    | some resource =>
                      match processQueryParameters request.urlQuery
                          resource.QueryParameters with
                      | .error e => ⟨.queryParameterFault e, true, false⟩
                      | .ok queryParams =>
                        let ctx3 := { ctx2 with QueryParameters := queryParams }
                        let result := resource.Implementation ctx3
                        match ctx3.ContentTypeOut with
                        | none => ⟨.panicked, true, true⟩
                        | some contentTypeOut =>
                          ⟨.executed ctx3 result contentTypeOut, true, true⟩

/-- The body text rendered for one failing branch, with the placeholder
request identifier of server.go line 125; the router-error branch (line 157)
renders the raw error message without the identifier prefix. -/
def outcomeMessage (urlPath : String) : DispatchOutcome → String
  | .routerError m => m
  | .routeNotFound => "[o] Could not find route for " ++ urlPath
  | .noEndpoint => "[o] No endpoint found for this route " ++ urlPath
  | .invalidContentTypeHeader e => "[o] Invalid Content-Type header : " ++ e
  | .invalidAcceptHeader e => "[o] Invalid Accept header : " ++ e
  | .noAcceptableMediaType => "[o] No valid Accept header was given"
  | .noResourceHandlers => "[o] No resource found on this route " ++ urlPath
  | .noMatchingResource => "[o] No available resource for this Content-Type"
  | .bodyReadError => "[o] Could not read request body"
  | .bodyNotAllowed => "[o] Body is not allowed for this resource"
  | .resourceInstantiationFailure =>
      "[o] Resource factory must instanciate a valid Resource"
  | .queryParameterFault (.invalidDefault key kind) =>
      "[o] Query parameter " ++ key ++ " default value must be of kind " ++ kind
  | .queryParameterFault (.invalidKind key kind) =>
      "[o] Query parameter " ++ key ++ " must be of kind " ++ kind
  | .queryParameterFault (.invalidFormat m) =>
      "[o] Invalid Query Parameter, " ++ m
  | _ => ""

/-- The responses written for one dispatch branch.  Every failing branch of
server.go writes exactly one response through renderResourceResult with the
status of its return site and a text/plain body; the executed branch renders
the handler result with the negotiated output content type; the documentation
branch writes the documentation payload; the panicked branch writes
nothing. -/
def outcomeToWrites (urlPath : String) : DispatchOutcome → List RenderedResponse
  | .docServed => [documentationResponse]
  | .routerError m =>
      [renderResourceResult ⟨StatusBadRequest, some (outcomeMessage urlPath (.routerError m))⟩ "text/plain"]
  | .routeNotFound =>
      [renderResourceResult ⟨StatusBadRequest, some (outcomeMessage urlPath .routeNotFound)⟩ "text/plain"]
  | .noEndpoint =>
      [renderResourceResult ⟨StatusInternalServerError, some (outcomeMessage urlPath .noEndpoint)⟩ "text/plain"]
  | .invalidContentTypeHeader e =>
      [renderResourceResult ⟨StatusBadRequest, some (outcomeMessage urlPath (.invalidContentTypeHeader e))⟩ "text/plain"]
  | .invalidAcceptHeader e =>
      [renderResourceResult ⟨StatusBadRequest, some (outcomeMessage urlPath (.invalidAcceptHeader e))⟩ "text/plain"]
  | .noAcceptableMediaType =>
      [renderResourceResult ⟨StatusBadRequest, some (outcomeMessage urlPath .noAcceptableMediaType)⟩ "text/plain"]
  | .noResourceHandlers =>
      [renderResourceResult ⟨StatusInternalServerError, some (outcomeMessage urlPath .noResourceHandlers)⟩ "text/plain"]
  | .noMatchingResource =>
      [renderResourceResult ⟨StatusBadRequest, some (outcomeMessage urlPath .noMatchingResource)⟩ "text/plain"]
  | .bodyReadError =>
      [renderResourceResult ⟨StatusInternalServerError, some (outcomeMessage urlPath .bodyReadError)⟩ "text/plain"]
  | .bodyNotAllowed =>
      [renderResourceResult ⟨StatusBadRequest, some (outcomeMessage urlPath .bodyNotAllowed)⟩ "text/plain"]
  | .resourceInstantiationFailure =>
      [renderResourceResult ⟨StatusInternalServerError, some (outcomeMessage urlPath .resourceInstantiationFailure)⟩ "text/plain"]
  | .queryParameterFault e =>
      [renderResourceResult ⟨StatusBadRequest, some (outcomeMessage urlPath (.queryParameterFault e))⟩ "text/plain"]
  | .executed _ result contentTypeOut =>
      [renderResourceResult result contentTypeOut]
  | .panicked => []

/-- Server.ServeHTTP end to end: dispatch, then the writes of the branch
taken. -/
def serveHTTP
    (newContentTypeHeaderParser : String → Except String ContentTypeHeaderParser)
    (newAcceptHeaderParser : String → Except String AcceptHeaderParser)
    (s : Server) (request : Request) : List RenderedResponse :=
  outcomeToWrites request.urlPath
    (dispatch newContentTypeHeaderParser newAcceptHeaderParser s request).outcome

/-- Modelled from the spec: FindMatchingResource (endpoint.go is not under
src/) resolves the output content type for every winning handler, so a
matched handler never comes with a nil contentTypeOut. -/
def Server.MatcherTotal (s : Server) : Prop :=
  ∀ path node endp m ctp ap,
    (s.findNodeByRoute path).2.1 = some node →
    node.endpoint = some endp →
    (endp.findMatchingResource m ctp ap).1.isSome = true →
    (endp.findMatchingResource m ctp ap).2.2.isSome = true

/-- The branches the spec classifies as client-input faults. -/
def DispatchOutcome.isClientFault : DispatchOutcome → Bool
  | .routerError _ => true
  | .routeNotFound => true
  | .invalidContentTypeHeader _ => true
  | .invalidAcceptHeader _ => true
  | .noAcceptableMediaType => true
  | .noMatchingResource => true
  | .bodyNotAllowed => true
  | .queryParameterFault _ => true
  | _ => false

/-- The branches the spec classifies as server-side faults. -/
def DispatchOutcome.isServerFault : DispatchOutcome → Bool
  | .noEndpoint => true
  | .noResourceHandlers => true
  | .bodyReadError => true
  | .resourceInstantiationFailure => true
  | _ => false


/-- The statuses of a list of written responses, in order. -/
def writtenStatuses (responses : List RenderedResponse) : List Nat :=
  responses.map fun resp => resp.statusWritten

/-- A content-type parsing function for concrete instances: an empty header
parses to no declared input type, anything else to itself. -/
def parseContentTypeSimple : String → Except String ContentTypeHeaderParser :=
  fun h => .ok ⟨if h == "" then none else some h⟩

/-- An accept parsing function for concrete instances: an empty header parses
to zero valid entries, anything else to a single full-quality entry. -/
def parseAcceptSimple : String → Except String AcceptHeaderParser :=
  fun h => .ok (if h == "" then ⟨[]⟩ else ⟨[⟨h, "*", 1000⟩]⟩)

/-- Every dispatch branch except the panicked one writes exactly one
response. -/
theorem outcomeToWrites_length_of_ne (urlPath : String) (o : DispatchOutcome)
    (h : o ≠ DispatchOutcome.panicked) :
    (outcomeToWrites urlPath o).length = 1 := by
  cases o <;> simp_all [outcomeToWrites]

/-- Every client-fault branch writes one response with status 400. -/
theorem outcomeToWrites_client_status (urlPath : String) (o : DispatchOutcome)
    (h : o.isClientFault = true) :
    writtenStatuses (outcomeToWrites urlPath o) = [StatusBadRequest] := by
  cases o <;> simp_all [outcomeToWrites, writtenStatuses, renderResourceResult,
    DispatchOutcome.isClientFault]

/-- Every server-fault branch writes one response with status 500. -/
theorem outcomeToWrites_server_status (urlPath : String) (o : DispatchOutcome)
    (h : o.isServerFault = true) :
    writtenStatuses (outcomeToWrites urlPath o) = [StatusInternalServerError] := by
  cases o <;> simp_all [outcomeToWrites, writtenStatuses, renderResourceResult,
    DispatchOutcome.isServerFault]

/-- A matched handler that resolved an output content type rules out the
nil-dereference at server.go line 307: the dispatcher never panics when the
matcher is total in the sense of the specification. -/
theorem dispatch_no_panic_of_matcherTotal
    (pc : String → Except String ContentTypeHeaderParser)
    (pa : String → Except String AcceptHeaderParser)
    (s : Server) (r : Request) (h : s.MatcherTotal) :
    (dispatch pc pa s r).outcome ≠ DispatchOutcome.panicked := by
  unfold dispatch
  repeat' split
  all_goals simp_all
  all_goals repeat' split
  all_goals simp_all
  all_goals simp_all [Server.MatcherTotal, RouteNode.GetEndpoint]
  rename_i hdoc2 hroute hendp hpc hpa hhas hne hbody hbn hsome hqp hnone
  exact absurd (h r.urlPath _ _ r.method _ _ (by rw [hroute]) hendp (by rw [hsome]; rfl))
    (by simp [hnone])

/-- C8: the 500 branch at server.go lines 260-265 re-tests for nil the same
matched-resource value that the check at lines 227-232 already established to
be non-nil, with no intervening reassignment (line 259 is a plain aliasing
binding), so the branch reporting a resource-factory failure is unreachable
for every server, request and parser. -/
theorem instantiationFailure_unreachable
    (pc : String → Except String ContentTypeHeaderParser)
    (pa : String → Except String AcceptHeaderParser)
    (s : Server) (r : Request) :
    (dispatch pc pa s r).outcome ≠ DispatchOutcome.resourceInstantiationFailure := by
  unfold dispatch
  repeat' split
  all_goals simp_all
  all_goals repeat' split
  all_goals simp_all

/-- C4: a request whose path the router resolves to no node (and no routing
error) is answered by the route-not-found branch: exactly one response is
written, with status 400, and neither the endpoint nor any handler is
consulted (the matcher-invocation and handler-execution flags are both
false). -/
theorem routeNotFound_yields_400
    (pc : String → Except String ContentTypeHeaderParser)
    (pa : String → Except String AcceptHeaderParser)
    (s : Server) (r : Request) (rv : List (String × String))
    (hdoc : (s.documentationEndpointEnabled && s.documentationEndpointUrl == r.urlPath) = false)
    (hroute : s.findNodeByRoute r.urlPath = (none, none, rv)) :
    dispatch pc pa s r = ⟨.routeNotFound, false, false⟩ ∧
    writtenStatuses (serveHTTP pc pa s r) = [StatusBadRequest] := by
  have hd : dispatch pc pa s r = ⟨.routeNotFound, false, false⟩ := by
    unfold dispatch
    rw [hdoc, hroute]
    rfl
  exact ⟨hd, by simp [serveHTTP, hd, writtenStatuses, outcomeToWrites, renderResourceResult]⟩

/-- Server and request for the route-not-found witness: a router that knows
no route at all, and a request to an unregistered path. -/
def c4Server : Server :=
  { documentationEndpointEnabled := false
    documentationEndpointUrl := ""
    findNodeByRoute := fun _ => (none, none, []) }

/-- Request for the route-not-found witness. -/
def c4Request : Request :=
  { urlPath := "/unregistered"
    method := "GET"
    header := [("Accept", "application/json")]
    bodyRead := .ok ""
    urlQuery := [] }

/-- Witness: the route-not-found theorem applied at a concrete server and
request. -/
theorem routeNotFound_yields_400_witness :
    dispatch parseContentTypeSimple parseAcceptSimple c4Server c4Request =
      ⟨.routeNotFound, false, false⟩ ∧
    writtenStatuses (serveHTTP parseContentTypeSimple parseAcceptSimple c4Server c4Request) =
      [StatusBadRequest] :=
  routeNotFound_yields_400 parseContentTypeSimple parseAcceptSimple c4Server c4Request []
    (by rfl) (by rfl)


/-- C5: when the Accept header parses to zero valid preference entries, the
request is rejected with status 400 before resource matching: the dispatch
ends in the no-acceptable-media-type branch, FindMatchingResource is never
invoked, and the handler is never executed. -/
theorem zeroAcceptElements_rejected_before_matching
    (pc : String → Except String ContentTypeHeaderParser)
    (pa : String → Except String AcceptHeaderParser)
    (s : Server) (r : Request) (rv : List (String × String))
    (node : RouteNode) (endp : Endpoint) (ctp : ContentTypeHeaderParser)
    (ap : AcceptHeaderParser)
    (hdoc : (s.documentationEndpointEnabled && s.documentationEndpointUrl == r.urlPath) = false)
    (hroute : s.findNodeByRoute r.urlPath = (none, some node, rv))
    (hendp : node.GetEndpoint = some endp)
    (hct : pc (valuesGet r.header "Content-Type") = .ok ctp)
    (hac : pa (valuesGet r.header "Accept") = .ok ap)
    (hzero : ap.elements = []) :
    dispatch pc pa s r = ⟨.noAcceptableMediaType, false, false⟩ ∧
    writtenStatuses (serveHTTP pc pa s r) = [StatusBadRequest] := by
  have hd : dispatch pc pa s r = ⟨.noAcceptableMediaType, false, false⟩ := by
    unfold dispatch
    simp [hdoc, hroute, hendp, hct, hac, hzero, AcceptHeaderParser.HasAcceptElement]
  exact ⟨hd, by simp [serveHTTP, hd, writtenStatuses, outcomeToWrites, renderResourceResult]⟩

/-- Server for the zero-accept-entries witness: one route with an endpoint
whose matcher would always succeed, to show it is not even consulted. -/
def c5Endpoint : Endpoint :=
  { resourceHandlers := [{ QueryParameters := [], Implementation := fun _ => ⟨200, some "ok"⟩ }]
    findMatchingResource := fun _ _ _ =>
      (some { QueryParameters := [], Implementation := fun _ => ⟨200, some "ok"⟩ },
        some "application/json", some "application/json") }

/-- Server for the zero-accept-entries witness. -/
def c5Server : Server :=
  { documentationEndpointEnabled := false
    documentationEndpointUrl := ""
    findNodeByRoute := fun _ => (none, some ⟨some c5Endpoint⟩, []) }

/-- Request for the zero-accept-entries witness: its empty Accept header
parses to zero valid entries under parseAcceptSimple. -/
def c5Request : Request :=
  { urlPath := "/items"
    method := "GET"
    header := []
    bodyRead := .ok ""
    urlQuery := [] }

/-- Witness: the zero-accept-entries theorem applied at a concrete server and
request. -/
theorem zeroAcceptElements_rejected_before_matching_witness :
    dispatch parseContentTypeSimple parseAcceptSimple c5Server c5Request =
      ⟨.noAcceptableMediaType, false, false⟩ ∧
    writtenStatuses (serveHTTP parseContentTypeSimple parseAcceptSimple c5Server c5Request) =
      [StatusBadRequest] :=
  zeroAcceptElements_rejected_before_matching parseContentTypeSimple parseAcceptSimple
    c5Server c5Request [] ⟨some c5Endpoint⟩ c5Endpoint ⟨none⟩ ⟨[]⟩
    (by rfl) (by rfl) (by rfl) (by rfl) (by rfl) (by rfl)

/-- C6: when the matched handler resolves no input content type (nil
ContentTypeIn) and the request body is non-empty, the dispatcher answers the
body-not-allowed branch with status 400 and the handler is not executed. -/
theorem bodyNotAllowed_when_no_input_type
    (pc : String → Except String ContentTypeHeaderParser)
    (pa : String → Except String AcceptHeaderParser)
    (s : Server) (r : Request) (rv : List (String × String))
    (node : RouteNode) (endp : Endpoint) (ctp : ContentTypeHeaderParser)
    (ap : AcceptHeaderParser) (rh : ResourceHandler) (cto : Option String)
    (b : String)
    (hdoc : (s.documentationEndpointEnabled && s.documentationEndpointUrl == r.urlPath) = false)
    (hroute : s.findNodeByRoute r.urlPath = (none, some node, rv))
    (hendp : node.GetEndpoint = some endp)
    (hct : pc (valuesGet r.header "Content-Type") = .ok ctp)
    (hac : pa (valuesGet r.header "Accept") = .ok ap)
    (hhas : ap.HasAcceptElement = true)
    (hne : endp.GetResourceHandlers ≠ [])
    (hmatch : endp.findMatchingResource r.method ctp ap = (some rh, none, cto))
    (hbody : r.bodyRead = .ok b)
    (hsize : 0 < b.utf8ByteSize) :
    dispatch pc pa s r = ⟨.bodyNotAllowed, true, false⟩ ∧
    writtenStatuses (serveHTTP pc pa s r) = [StatusBadRequest] := by
  have hd : dispatch pc pa s r = ⟨.bodyNotAllowed, true, false⟩ := by
    unfold dispatch
    simp [hdoc, hroute, hendp, hct, hac, hhas, hne, hmatch, hbody, hsize]
  exact ⟨hd, by simp [serveHTTP, hd, writtenStatuses, outcomeToWrites, renderResourceResult]⟩

/-- Handler for the body-not-allowed witness. -/
def c6Handler : ResourceHandler :=
  { QueryParameters := [], Implementation := fun _ => ⟨200, some "ok"⟩ }

/-- Endpoint for the body-not-allowed witness: the matcher resolves the
handler with no input content type. -/
def c6Endpoint : Endpoint :=
  { resourceHandlers := [c6Handler]
    findMatchingResource := fun _ _ _ => (some c6Handler, none, some "application/json") }

/-- Server for the body-not-allowed witness. -/
def c6Server : Server :=
  { documentationEndpointEnabled := false
    documentationEndpointUrl := ""
    findNodeByRoute := fun _ => (none, some ⟨some c6Endpoint⟩, []) }

/-- Request for the body-not-allowed witness: a non-empty body with no
Content-Type header. -/
def c6Request : Request :=
  { urlPath := "/items"
    method := "POST"
    header := [("Accept", "application/json")]
    bodyRead := .ok "payload"
    urlQuery := [] }

/-- Witness: the body-not-allowed theorem applied at a concrete server and
request. -/
theorem bodyNotAllowed_when_no_input_type_witness :
    dispatch parseContentTypeSimple parseAcceptSimple c6Server c6Request =
      ⟨.bodyNotAllowed, true, false⟩ ∧
    writtenStatuses (serveHTTP parseContentTypeSimple parseAcceptSimple c6Server c6Request) =
      [StatusBadRequest] :=
  bodyNotAllowed_when_no_input_type parseContentTypeSimple parseAcceptSimple
    c6Server c6Request [] ⟨some c6Endpoint⟩ c6Endpoint ⟨none⟩
    ⟨[⟨"application/json", "*", 1000⟩]⟩ c6Handler (some "application/json") "payload"
    (by rfl) (by rfl) (by rfl) (by rfl) (by rfl) (by rfl) (by simp [c6Endpoint, Endpoint.GetResourceHandlers]) (by rfl) (by rfl) (by decide)


/-- C1 (amended): a declared query parameter that is absent from the query
string (the retrieved value is empty) and whose configured default fails its
declared kind makes the dispatcher answer the misconfigured-default branch
with status 400 — not a 500-class status — and the handler is not executed.
The parameter is taken first in the declaration order, matching the fact that
the source loop stops at the first failing parameter. -/
theorem misconfiguredDefault_yields_400_no_execution
    (pc : String → Except String ContentTypeHeaderParser)
    (pa : String → Except String AcceptHeaderParser)
    (s : Server) (r : Request) (rv : List (String × String))
    (node : RouteNode) (endp : Endpoint) (ctp : ContentTypeHeaderParser)
    (ap : AcceptHeaderParser) (rh : ResourceHandler) (cti : String)
    (cto : Option String) (b : String) (key : String) (qp : QueryParameter)
    (rest : List (String × QueryParameter))
    (hdoc : (s.documentationEndpointEnabled && s.documentationEndpointUrl == r.urlPath) = false)
    (hroute : s.findNodeByRoute r.urlPath = (none, some node, rv))
    (hendp : node.GetEndpoint = some endp)
    (hct : pc (valuesGet r.header "Content-Type") = .ok ctp)
    (hac : pa (valuesGet r.header "Accept") = .ok ap)
    (hhas : ap.HasAcceptElement = true)
    (hne : endp.GetResourceHandlers ≠ [])
    (hmatch : endp.findMatchingResource r.method ctp ap = (some rh, some cti, cto))
    (hbody : r.bodyRead = .ok b)
    (hq : rh.QueryParameters = (key, qp) :: rest)
    (habsent : valuesGet r.urlQuery key = "")
    (hbad : qp.IsValidType qp.DefaultValue = false) :
    dispatch pc pa s r = ⟨.queryParameterFault (.invalidDefault key qp.Kind), true, false⟩ ∧
    writtenStatuses (serveHTTP pc pa s r) = [StatusBadRequest] := by
  have hd : dispatch pc pa s r =
      ⟨.queryParameterFault (.invalidDefault key qp.Kind), true, false⟩ := by
    unfold dispatch
    simp [hdoc, hroute, hendp, hct, hac, hhas, hne, hmatch, hbody, hq, habsent, hbad,
      processQueryParameters, checkQueryParameter]
  exact ⟨hd, by simp [serveHTTP, hd, writtenStatuses, outcomeToWrites, renderResourceResult]⟩

/-- Query parameter for the misconfigured-default witness: digits-only kind,
non-numeric default. -/
def c1Qp : QueryParameter :=
  { Kind := "int"
    DefaultValue := "abc"
    FormatValidator := none
    IsValidType := fun v => !v.isEmpty && v.data.all Char.isDigit }

/-- Handler for the misconfigured-default witness. -/
def c1Handler : ResourceHandler :=
  { QueryParameters := [("page", c1Qp)]
    Implementation := fun _ => ⟨200, some "ok"⟩ }

/-- Endpoint for the misconfigured-default witness. -/
def c1Endpoint : Endpoint :=
  { resourceHandlers := [c1Handler]
    findMatchingResource := fun _ _ _ =>
      (some c1Handler, some "application/json", some "application/json") }

/-- Server for the misconfigured-default witness. -/
def c1Server : Server :=
  { documentationEndpointEnabled := false
    documentationEndpointUrl := ""
    findNodeByRoute := fun _ => (none, some ⟨some c1Endpoint⟩, []) }

/-- Request for the misconfigured-default witness: the declared parameter is
absent from the query string. -/
def c1Request : Request :=
  { urlPath := "/items"
    method := "GET"
    header := [("Accept", "application/json"), ("Content-Type", "application/json")]
    bodyRead := .ok ""
    urlQuery := [] }

/-- Witness: the misconfigured-default theorem applied at a concrete server
and request. -/
theorem misconfiguredDefault_yields_400_no_execution_witness :
    dispatch parseContentTypeSimple parseAcceptSimple c1Server c1Request =
      ⟨.queryParameterFault (.invalidDefault "page" c1Qp.Kind), true, false⟩ ∧
    writtenStatuses (serveHTTP parseContentTypeSimple parseAcceptSimple c1Server c1Request) =
      [StatusBadRequest] :=
  misconfiguredDefault_yields_400_no_execution parseContentTypeSimple parseAcceptSimple
    c1Server c1Request [] ⟨some c1Endpoint⟩ c1Endpoint ⟨some "application/json"⟩
    ⟨[⟨"application/json", "*", 1000⟩]⟩ c1Handler "application/json"
    (some "application/json") "" "page" c1Qp []
    (by rfl) (by rfl) (by rfl) (by rfl) (by rfl) (by rfl)
    (by simp [c1Endpoint, Endpoint.GetResourceHandlers]) (by rfl) (by rfl) (by rfl)
    (by rfl) (by decide)

/-- Counterexample to C1 as stated: at this concrete server and request the
missing-parameter-with-invalid-default branch fires, and the single written
response has status 400, which is not a 500-class status. -/
theorem misconfiguredDefault_not_500_counterexample :
    (dispatch parseContentTypeSimple parseAcceptSimple c1Server c1Request).outcome =
      DispatchOutcome.queryParameterFault (.invalidDefault "page" "int") ∧
    writtenStatuses (serveHTTP parseContentTypeSimple parseAcceptSimple c1Server c1Request) =
      [StatusBadRequest] ∧
    ¬ 500 ≤ StatusBadRequest :=
  ⟨by decide, by decide, by decide⟩


/-- C3 (amended): for every request, the dispatcher writes exactly one
response (given the spec-guaranteed shape of FindMatchingResource results),
and every request-time failure is translated to a single client-visible
status: 400 on the client-input-fault branches — bad headers, unmatched route
or content type, invalid or missing query parameters, disallowed body, and
also the misconfigured default value — and 500 on the server-side-fault
branches — endpoint with no handler registered, body read failure, and the
(unreachable) no-handler-instance branch. -/
theorem single_response_and_status_classes
    (pc : String → Except String ContentTypeHeaderParser)
    (pa : String → Except String AcceptHeaderParser)
    (s : Server) (r : Request) (h : s.MatcherTotal) :
    (serveHTTP pc pa s r).length = 1 ∧
    ((dispatch pc pa s r).outcome.isClientFault = true →
      writtenStatuses (serveHTTP pc pa s r) = [StatusBadRequest]) ∧
    ((dispatch pc pa s r).outcome.isServerFault = true →
      writtenStatuses (serveHTTP pc pa s r) = [StatusInternalServerError]) :=
  ⟨outcomeToWrites_length_of_ne r.urlPath (dispatch pc pa s r).outcome
      (dispatch_no_panic_of_matcherTotal pc pa s r h),
    fun hc => outcomeToWrites_client_status r.urlPath (dispatch pc pa s r).outcome hc,
    fun hs => outcomeToWrites_server_status r.urlPath (dispatch pc pa s r).outcome hs⟩

/-- Server for the single-response witness: a router that knows no route, so
the matcher-totality hypothesis holds vacuously. -/
def c3Server : Server :=
  { documentationEndpointEnabled := false
    documentationEndpointUrl := ""
    findNodeByRoute := fun _ => (none, none, []) }

/-- Request for the single-response witness. -/
def c3Request : Request :=
  { urlPath := "/missing"
    method := "GET"
    header := []
    bodyRead := .ok ""
    urlQuery := [] }

/-- Witness: the single-response theorem applied at a concrete server and
request, the matcher-totality hypothesis discharged vacuously. -/
theorem single_response_and_status_classes_witness :
    (serveHTTP parseContentTypeSimple parseAcceptSimple c3Server c3Request).length = 1 ∧
    ((dispatch parseContentTypeSimple parseAcceptSimple c3Server c3Request).outcome.isClientFault = true →
      writtenStatuses (serveHTTP parseContentTypeSimple parseAcceptSimple c3Server c3Request) =
        [StatusBadRequest]) ∧
    ((dispatch parseContentTypeSimple parseAcceptSimple c3Server c3Request).outcome.isServerFault = true →
      writtenStatuses (serveHTTP parseContentTypeSimple parseAcceptSimple c3Server c3Request) =
        [StatusInternalServerError]) :=
  single_response_and_status_classes parseContentTypeSimple parseAcceptSimple
    c3Server c3Request (fun _ _ _ _ _ _ h1 _ _ => nomatch h1)

/-- Query parameter for the status-classes counterexample: boolean kind with
a default that is not a boolean. -/
def c3xQp : QueryParameter :=
  { Kind := "bool"
    DefaultValue := "notabool"
    FormatValidator := none
    IsValidType := fun v => v == "true" || v == "false" }

/-- Handler for the status-classes counterexample. -/
def c3xHandler : ResourceHandler :=
  { QueryParameters := [("limit", c3xQp)]
    Implementation := fun _ => ⟨200, some "ok"⟩ }

/-- Endpoint for the status-classes counterexample. -/
def c3xEndpoint : Endpoint :=
  { resourceHandlers := [c3xHandler]
    findMatchingResource := fun _ _ _ =>
      (some c3xHandler, some "text/plain", some "text/plain") }

/-- Server for the status-classes counterexample. -/
def c3xServer : Server :=
  { documentationEndpointEnabled := false
    documentationEndpointUrl := ""
    findNodeByRoute := fun _ => (none, some ⟨some c3xEndpoint⟩, []) }

/-- Request for the status-classes counterexample: the declared parameter is
absent, so the misconfigured default is hit. -/
def c3xRequest : Request :=
  { urlPath := "/c3-items"
    method := "GET"
    header := [("Accept", "text/plain"), ("Content-Type", "text/plain")]
    bodyRead := .ok ""
    urlQuery := [] }

/-- Counterexample to C3 as stated: the claim classifies a misconfigured
default value among the 500 server-side contract violations, but at this
concrete input the dispatcher hits exactly that fault and the single written
response has status 400, not 500. -/
theorem status_classes_counterexample :
    (dispatch parseContentTypeSimple parseAcceptSimple c3xServer c3xRequest).outcome =
      DispatchOutcome.queryParameterFault (.invalidDefault "limit" "bool") ∧
    writtenStatuses (serveHTTP parseContentTypeSimple parseAcceptSimple c3xServer c3xRequest) =
      [StatusBadRequest] ∧
    ¬ writtenStatuses (serveHTTP parseContentTypeSimple parseAcceptSimple c3xServer c3xRequest) =
      [StatusInternalServerError] :=
  ⟨by decide, by decide, by decide⟩


/-- C7 (amended): for a declared query parameter present in the query string
with a non-empty value, the dispatcher validates that value against the kind
first — a kind failure surfaces the kind error for any format validator —
then, only on kind success, applies the optional format validator, surfacing
the validator error message on failure; a value passing both is delivered to
the handler verbatim in the name-to-string query-parameter mapping of the
execution context. -/
theorem presentNonEmptyParameter_validation_order
    (pc : String → Except String ContentTypeHeaderParser)
    (pa : String → Except String AcceptHeaderParser)
    (s : Server) (r : Request) (rv : List (String × String))
    (node : RouteNode) (endp : Endpoint) (ctp : ContentTypeHeaderParser)
    (ap : AcceptHeaderParser) (rh : ResourceHandler) (cti : String)
    (ctOut : String) (b : String) (key : String) (qp : QueryParameter)
    (v : String) (fv : QueryParameterFormatValidator)
    (ctxE : ResourceHandlerContext)
    (hdoc : (s.documentationEndpointEnabled && s.documentationEndpointUrl == r.urlPath) = false)
    (hroute : s.findNodeByRoute r.urlPath = (none, some node, rv))
    (hendp : node.GetEndpoint = some endp)
    (hct : pc (valuesGet r.header "Content-Type") = .ok ctp)
    (hac : pa (valuesGet r.header "Accept") = .ok ap)
    (hhas : ap.HasAcceptElement = true)
    (hne : endp.GetResourceHandlers ≠ [])
    (hmatch : endp.findMatchingResource r.method ctp ap = (some rh, some cti, some ctOut))
    (hbody : r.bodyRead = .ok b)
    (hq : rh.QueryParameters = [(key, qp)])
    (hv : valuesGet r.urlQuery key = v)
    (hnonempty : (v == "") = false)
    (hctx : ctxE =
      { RouteVariables := rv, Header := r.header,
        ContentTypeIn := some cti, ContentTypeOut := some ctOut,
        Body := some b, QueryParameters := [(key, v)] }) :
    (qp.IsValidType v = false →
      dispatch pc pa s r = ⟨.queryParameterFault (.invalidKind key qp.Kind), true, false⟩) ∧
    (qp.IsValidType v = true → qp.FormatValidator = none →
      dispatch pc pa s r = ⟨.executed ctxE (rh.Implementation ctxE) ctOut, true, true⟩) ∧
    (qp.IsValidType v = true → qp.FormatValidator = some fv → fv.IsValid v = true →
      dispatch pc pa s r = ⟨.executed ctxE (rh.Implementation ctxE) ctOut, true, true⟩) ∧
    (qp.IsValidType v = true → qp.FormatValidator = some fv → fv.IsValid v = false →
      dispatch pc pa s r = ⟨.queryParameterFault (.invalidFormat fv.GetErrorMessage), true, false⟩) ∧
    ctxE.QueryParameters = [(key, v)] := by
  subst hctx
  refine ⟨fun hkind => ?_, fun hkind hfv => ?_, fun hkind hfv hval => ?_,
    fun hkind hfv hval => ?_, rfl⟩ <;>
  · unfold dispatch
    simp [hdoc, hroute, hendp, hct, hac, hhas, hne, hmatch, hbody, hq, hv,
      hnonempty, hkind, processQueryParameters, checkQueryParameter,
      checkQueryParameterValue, *]


/-- Format validator for the validation-order witness. -/
def c7Fv : QueryParameterFormatValidator :=
  { IsValid := fun v => v == "7", GetErrorMessage := "p must be exactly 7" }

/-- Query parameter for the validation-order witness: digits-only kind with a
format validator. -/
def c7Qp : QueryParameter :=
  { Kind := "int"
    DefaultValue := "1"
    FormatValidator := some c7Fv
    IsValidType := fun v => !v.isEmpty && v.data.all Char.isDigit }

/-- Handler for the validation-order witness: echoes the delivered value. -/
def c7Handler : ResourceHandler :=
  { QueryParameters := [("p", c7Qp)]
    Implementation := fun ctx => ⟨200, some (valuesGet ctx.QueryParameters "p")⟩ }

/-- Endpoint for the validation-order witness. -/
def c7Endpoint : Endpoint :=
  { resourceHandlers := [c7Handler]
    findMatchingResource := fun _ _ _ =>
      (some c7Handler, some "application/json", some "application/json") }

/-- Server for the validation-order witness. -/
def c7Server : Server :=
  { documentationEndpointEnabled := false
    documentationEndpointUrl := ""
    findNodeByRoute := fun _ => (none, some ⟨some c7Endpoint⟩, []) }

/-- Request for the validation-order witness: the parameter is supplied with
the non-empty value 7. -/
def c7Request : Request :=
  { urlPath := "/items"
    method := "GET"
    header := [("Accept", "application/json"), ("Content-Type", "application/json")]
    bodyRead := .ok ""
    urlQuery := [("p", "7")] }

/-- Execution context expected at the validation-order witness. -/
def c7Context : ResourceHandlerContext :=
  { RouteVariables := [], Header := c7Request.header,
    ContentTypeIn := some "application/json", ContentTypeOut := some "application/json",
    Body := some "", QueryParameters := [("p", "7")] }

/-- Witness: the validation-order theorem applied at a concrete server and
request whose parameter value passes kind and format validation. -/
theorem presentNonEmptyParameter_validation_order_witness :
    (c7Qp.IsValidType "7" = false →
      dispatch parseContentTypeSimple parseAcceptSimple c7Server c7Request =
        ⟨.queryParameterFault (.invalidKind "p" c7Qp.Kind), true, false⟩) ∧
    (c7Qp.IsValidType "7" = true → c7Qp.FormatValidator = none →
      dispatch parseContentTypeSimple parseAcceptSimple c7Server c7Request =
        ⟨.executed c7Context (c7Handler.Implementation c7Context) "application/json", true, true⟩) ∧
    (c7Qp.IsValidType "7" = true → c7Qp.FormatValidator = some c7Fv → c7Fv.IsValid "7" = true →
      dispatch parseContentTypeSimple parseAcceptSimple c7Server c7Request =
        ⟨.executed c7Context (c7Handler.Implementation c7Context) "application/json", true, true⟩) ∧
    (c7Qp.IsValidType "7" = true → c7Qp.FormatValidator = some c7Fv → c7Fv.IsValid "7" = false →
      dispatch parseContentTypeSimple parseAcceptSimple c7Server c7Request =
        ⟨.queryParameterFault (.invalidFormat c7Fv.GetErrorMessage), true, false⟩) ∧
    c7Context.QueryParameters = [("p", "7")] :=
  presentNonEmptyParameter_validation_order parseContentTypeSimple parseAcceptSimple
    c7Server c7Request [] ⟨some c7Endpoint⟩ c7Endpoint ⟨some "application/json"⟩
    ⟨[⟨"application/json", "*", 1000⟩]⟩ c7Handler "application/json" "application/json"
    "" "p" c7Qp "7" c7Fv c7Context
    (by rfl) (by rfl) (by rfl) (by rfl) (by rfl) (by rfl)
    (by simp [c7Endpoint, Endpoint.GetResourceHandlers]) (by rfl) (by rfl) (by rfl)
    (by rfl) (by rfl) (by rfl)

/-- Query parameter for the present-empty counterexample: digits-only kind,
so the empty string fails the kind, with the valid default 5. -/
def c7xQp : QueryParameter :=
  { Kind := "int"
    DefaultValue := "5"
    FormatValidator := none
    IsValidType := fun v => !v.isEmpty && v.data.all Char.isDigit }

/-- Handler for the present-empty counterexample: echoes the delivered
value. -/
def c7xHandler : ResourceHandler :=
  { QueryParameters := [("p", c7xQp)]
    Implementation := fun ctx => ⟨200, some (valuesGet ctx.QueryParameters "p")⟩ }

/-- Endpoint for the present-empty counterexample. -/
def c7xEndpoint : Endpoint :=
  { resourceHandlers := [c7xHandler]
    findMatchingResource := fun _ _ _ =>
      (some c7xHandler, some "application/json", some "application/json") }

/-- Server for the present-empty counterexample. -/
def c7xServer : Server :=
  { documentationEndpointEnabled := false
    documentationEndpointUrl := ""
    findNodeByRoute := fun _ => (none, some ⟨some c7xEndpoint⟩, []) }

/-- Request for the present-empty counterexample: the parameter is present in
the query string with the empty value. -/
def c7xRequest : Request :=
  { urlPath := "/items"
    method := "GET"
    header := [("Accept", "application/json"), ("Content-Type", "application/json")]
    bodyRead := .ok ""
    urlQuery := [("p", "")] }

/-- Execution context the dispatcher actually builds at the present-empty
counterexample: the delivered value is the default, not the supplied empty
string. -/
def c7xContext : ResourceHandlerContext :=
  { RouteVariables := [], Header := c7xRequest.header,
    ContentTypeIn := some "application/json", ContentTypeOut := some "application/json",
    Body := some "", QueryParameters := [("p", "5")] }

/-- Counterexample to C7 as stated: the parameter p is present in the query
string with the empty value, that value fails its declared kind, yet the
dispatcher does not validate it — it executes the handler and delivers the
default value 5 instead. -/
theorem presentEmptyParameter_counterexample :
    ("p", "") ∈ c7xRequest.urlQuery ∧
    c7xQp.IsValidType "" = false ∧
    (dispatch parseContentTypeSimple parseAcceptSimple c7xServer c7xRequest).outcome =
      DispatchOutcome.executed c7xContext (c7xHandler.Implementation c7xContext)
        "application/json" ∧
    c7xContext.QueryParameters = [("p", "5")] ∧
    (dispatch parseContentTypeSimple parseAcceptSimple c7xServer c7xRequest).handlerExecuted =
      true :=
  ⟨by decide, by decide, by decide, by rfl, by decide⟩


/-- C9: a query parameter whose retrieved value is the empty string — in
particular one supplied in the query string as the empty string, since the
retrieval returns the first bound value — behaves exactly like an absent
parameter: the check equals the check under any other value set where the
key is also absent, the configured default is substituted, and the default is
itself checked against the declared kind. -/
theorem emptyValue_treated_as_absent
    (vs vsAbsent : List (String × String)) (key : String) (qp : QueryParameter)
    (h : valuesGet vs key = "") (hAbsent : valuesGet vsAbsent key = "") :
    valuesGet ((key, "") :: vs) key = "" ∧
    checkQueryParameter vs key qp = checkQueryParameter vsAbsent key qp ∧
    (qp.IsValidType qp.DefaultValue = false →
      checkQueryParameter vs key qp = .error (.invalidDefault key qp.Kind)) ∧
    (qp.IsValidType qp.DefaultValue = true →
      checkQueryParameter vs key qp = checkQueryParameterValue key qp qp.DefaultValue) := by
  refine ⟨by simp [valuesGet, List.find?], by simp [checkQueryParameter, h, hAbsent],
    fun hbad => ?_, fun hgood => ?_⟩
  · simp [checkQueryParameter, h, hbad]
  · simp [checkQueryParameter, h, hgood]

/-- Query parameter for the empty-as-absent witness. -/
def c9Qp : QueryParameter :=
  { Kind := "int"
    DefaultValue := "3"
    FormatValidator := none
    IsValidType := fun v => !v.isEmpty && v.data.all Char.isDigit }

/-- Witness: the empty-as-absent theorem applied at a concrete value set that
supplies the parameter as the empty string, against one where the parameter
is absent. -/
theorem emptyValue_treated_as_absent_witness :
    valuesGet (("p", "") :: [("q", "1"), ("p", "")]) "p" = "" ∧
    checkQueryParameter [("q", "1"), ("p", "")] "p" c9Qp =
      checkQueryParameter [("q", "1")] "p" c9Qp ∧
    (c9Qp.IsValidType c9Qp.DefaultValue = false →
      checkQueryParameter [("q", "1"), ("p", "")] "p" c9Qp =
        .error (.invalidDefault "p" c9Qp.Kind)) ∧
    (c9Qp.IsValidType c9Qp.DefaultValue = true →
      checkQueryParameter [("q", "1"), ("p", "")] "p" c9Qp =
        checkQueryParameterValue "p" c9Qp c9Qp.DefaultValue) :=
  emptyValue_treated_as_absent [("q", "1"), ("p", "")] [("q", "1")] "p" c9Qp
    (by rfl) (by rfl)

/-- C10: renderResourceResult sets the Content-Length header to the exact
byte length of the result body, 0 for a nil body, writes the result status
unchanged, and sets a Content-Type header exactly when that length is
positive — so a response with an empty body carries no Content-Type header
regardless of its status. -/
theorem renderResourceResult_headers
    (result : ResourceHandlerResult) (ct : String) :
    (renderResourceResult result ct).contentLengthHeader = resultBodyLength result ∧
    (renderResourceResult ⟨result.HttpStatus, none⟩ ct).contentLengthHeader = 0 ∧
    ((renderResourceResult result ct).contentTypeHeader = some ct ↔
      0 < resultBodyLength result) ∧
    ((renderResourceResult result ct).contentTypeHeader = none ↔
      resultBodyLength result = 0) ∧
    (renderResourceResult ⟨result.HttpStatus, some ""⟩ ct).contentTypeHeader = none ∧
    (renderResourceResult result ct).statusWritten = result.HttpStatus := by
  have hempty : (renderResourceResult ⟨result.HttpStatus, some ""⟩ ct).contentTypeHeader = none := by
    have h0 : resultBodyLength ⟨result.HttpStatus, some ""⟩ = 0 := rfl
    simp [renderResourceResult, h0]
  refine ⟨rfl, rfl, ?_, ?_, hempty, rfl⟩ <;>
  · rcases Nat.eq_zero_or_pos (resultBodyLength result) with h | h
    · simp [renderResourceResult, h]
    · simp [renderResourceResult, h, Nat.pos_iff_ne_zero.mp h]


/-- Query parameter for the direct-execution evidence. -/
def c2Qp : QueryParameter :=
  { Kind := "string"
    DefaultValue := "anon"
    FormatValidator := none
    IsValidType := fun _ => true }

/-- The handler registered for the direct-execution evidence: its result
depends on the context it receives. -/
def c2Handler : ResourceHandler :=
  { QueryParameters := [("name", c2Qp)]
    Implementation := fun ctx => ⟨200, some ("hello " ++ valuesGet ctx.QueryParameters "name")⟩ }

/-- Endpoint for the direct-execution evidence: c2Handler is the registered
handler and the one the matcher returns. -/
def c2Endpoint : Endpoint :=
  { resourceHandlers := [c2Handler]
    findMatchingResource := fun _ _ _ =>
      (some c2Handler, some "text/plain", some "text/plain") }

/-- Server for the direct-execution evidence. -/
def c2Server : Server :=
  { documentationEndpointEnabled := false
    documentationEndpointUrl := ""
    findNodeByRoute := fun _ => (none, some ⟨some c2Endpoint⟩, []) }

/-- Request for the direct-execution evidence. -/
def c2Request : Request :=
  { urlPath := "/hello"
    method := "GET"
    header := [("Accept", "text/plain"), ("Content-Type", "text/plain")]
    bodyRead := .ok ""
    urlQuery := [("name", "world")] }

/-- Execution context the dispatcher builds at the direct-execution
evidence. -/
def c2Context : ResourceHandlerContext :=
  { RouteVariables := [], Header := c2Request.header,
    ContentTypeIn := some "text/plain", ContentTypeOut := some "text/plain",
    Body := some "", QueryParameters := [("name", "world")] }

/-- C2 evidence: server.go line 259 binds the matched resource directly
(resource := matchingResource) with no factory invocation, so the result the
dispatcher renders at line 306 is the one produced by the Implementation of
the registered handler object itself — here the registered c2Handler — not by
any per-request instance obtained from a factory. -/
theorem registeredHandler_executed_directly :
    c2Endpoint.resourceHandlers = [c2Handler] ∧
    (dispatch parseContentTypeSimple parseAcceptSimple c2Server c2Request).outcome =
      DispatchOutcome.executed c2Context (c2Handler.Implementation c2Context) "text/plain" ∧
    (dispatch parseContentTypeSimple parseAcceptSimple c2Server c2Request).handlerExecuted =
      true ∧
    c2Handler.Implementation c2Context = ⟨200, some "hello world"⟩ :=
  ⟨rfl, by decide, by decide, by decide⟩

end Gorip
